import Mathlib

/-!
Verification of the rate-limit tracker and retrying call coordinator of the
go-discogs client (`ratelimit.go`), as a shallow embedding.

Modelling conventions:
* Wall-clock times and durations are `Int` nanoseconds (Go `time.Time` /
  `time.Duration`); the Go zero `time.Time` is instant `0`.
* Go `error` values are `Option GoError` (`none` = nil).  `GoError.wrap`
  models an error whose `Unwrap` yields the inner error, so `errors.Is`
  becomes the recursive `errorsIs` below.  The distinguished sentinel
  `ErrTooManyRequests` is the constructor `GoError.tooManyRequests`.
* The work function `f` is modelled by the list of its successive behaviours:
  each `Attempt` holds the error the invocation returns and the
  `rl.Update(total, used, remaining)` it performs (the request executor calls
  `Update` after every remote call; `none` when it performs no update).
* The `sleep` parameter of the inner `call` stays a parameter, exactly as in
  the source: a function from the current time and a duration to the error
  `sleep` returns (the context's error on cancellation, `none` otherwise)
  and the time when it returns.
* The loop of `call` is unrolled along the list of attempts; ghost counters
  record the total time slept, the number of pauses and the number of
  invocations of `f`, which is what the repository's own tests observe.
* Go's `time.Duration` is a 64-bit signed integer, so `delay *= 2` and the
  accumulation of slept durations (the tests' `slept += duration`) are
  two's-complement int64 operations: both are computed through `wrap64`
  below, which wraps an unbounded `Int` into `[-2^63, 2^63 - 1]`.
-/

/-- A Go error value: the `ErrTooManyRequests` sentinel, an error wrapping
another error (`fmt.Errorf` with `%w`), or any other distinct error. -/
inductive GoError where
  | tooManyRequests : GoError
  | wrap : GoError → GoError
  | other : Nat → GoError
  deriving Repr, DecidableEq

/-- The sentinel returned by the request layer on HTTP 429, compared against
with `errors.Is` in `call`.  Its declaration lives outside the staged files;
here it is the distinguished constructor. -/
def ErrTooManyRequests : GoError := GoError.tooManyRequests

/-- `errors.Is(err, target)` for a non-nil target with no custom `Is` method:
walk the unwrap chain looking for an error equal to the target. -/
def errorsIsAux : GoError → GoError → Bool
  | e, t =>
    if e = t then true
    else
      match e with
      | GoError.wrap inner => errorsIsAux inner t
      | _ => false

/-- `errors.Is` on a possibly-nil error (`none` = Go `nil`): nil matches no
non-nil target. -/
def errorsIs : Option GoError → GoError → Bool
  | none, _ => false
  | some e, t => errorsIsAux e t

/-- The `RateLimit` struct of ratelimit.go: the last reported quota snapshot
and the time it was recorded (the mutex only serialises access and carries no
data, so it is not part of the model). -/
structure RateLimit where
  total : Int
  used : Int
  remaining : Int
  updated : Int
  deriving Repr, DecidableEq

/-- `Update` overwrites all three counters and stamps the current time
(`now` stands for the `time.Now()` call inside `Update`). -/
def RateLimit.update (r : RateLimit) (total used remaining : Int) (now : Int) :
    RateLimit :=
  { r with total := total, used := used, remaining := remaining, updated := now }

/-- `Get` returns the snapshot as one consistent tuple
`(total, used, remaining, updated)`. -/
def RateLimit.get (r : RateLimit) : Int × Int × Int × Int :=
  (r.total, r.used, r.remaining, r.updated)

/-- `minimumRateLimitDelay = 2500 * time.Millisecond`, in nanoseconds. -/
def minimumRateLimitDelay : Int := 2500 * 1000000

/-- The largest value of Go's int64 `time.Duration`, `2^63 - 1`. -/
def int64Max : Int := 9223372036854775807

/-- Two's-complement wraparound of Go's 64-bit `time.Duration` arithmetic
(`9223372036854775808 = 2^63`, `18446744073709551616 = 2^64`): `delay *= 2`
and duration accumulation operate on int64 and wrap on overflow. -/
def wrap64 (x : Int) : Int :=
  (x + 9223372036854775808) % 18446744073709551616 - 9223372036854775808

/-- The freshness window `10 * time.Second` of the pause condition, in
nanoseconds. -/
def freshnessWindow : Int := 10 * 1000000000

/-- The pause condition of line 76 of ratelimit.go:
`!first || time.Now().Sub(when) < 10*time.Second && remaining <= 1`
(`&&` binds tighter than `||`, in Go as here). -/
def needPause (first : Bool) (now remaining whenT : Int) : Bool :=
  !first || (decide (now - whenT < freshnessWindow) && decide (remaining ≤ 1))

/-- One modelled invocation of the work function: the error it returns and
the `Update(total, used, remaining)` it performs during the attempt, if any. -/
structure Attempt where
  err : Option GoError
  upd : Option (Int × Int × Int)
  deriving Repr, DecidableEq

/-- The effect of one attempt on the shared snapshot: apply its `Update`, if
it performs one, stamped with the current time. -/
def applyAttempt (r : RateLimit) (now : Int) (a : Attempt) : RateLimit :=
  match a.upd with
  | none => r
  | some (t, u, m) => r.update t u m now

/-- The observable state when the loop of `call` stops: the shared snapshot,
the clock, the current `delay` variable, and the ghost counters (total time
slept, number of completed pauses, number of invocations of `f`). -/
structure LoopState where
  rl : RateLimit
  now : Int
  delay : Int
  slept : Int
  pauses : Nat
  calls : Nat
  deriving Repr, DecidableEq

/-- How a run of `call` ends: a `return err` after an attempt, a
`return err` out of a cancelled sleep, or the modelled attempt list ran out
while the loop wanted to continue. -/
inductive CallOutcome where
  | returned : Option GoError → LoopState → CallOutcome
  | canceled : GoError → LoopState → CallOutcome
  | fuelOut : LoopState → CallOutcome
  deriving Repr, DecidableEq

/-- The loop body of `call` (lines 70–88 of ratelimit.go), unrolled along the
list of modelled attempts.  Each iteration reads the snapshot with `Get`,
pauses when `needPause` holds (returning the sleep's error if the context is
done, otherwise doubling `delay` with int64 wraparound and accumulating the
slept duration likewise), invokes `f`, returns any result that is not
`ErrTooManyRequests` under `errors.Is`, and otherwise loops with
`first = false`. -/
def callLoop (sleep : Int → Int → Option GoError × Int) :
    List Attempt → RateLimit → Int → Int → Bool → Int → Nat → Nat → CallOutcome
  | [], r, now, delay, _, slept, pauses, calls =>
      CallOutcome.fuelOut ⟨r, now, delay, slept, pauses, calls⟩
  | a :: rest, r, now, delay, first, slept, pauses, calls =>
      if needPause first now (r.get).2.2.1 (r.get).2.2.2 then
        match sleep now delay with
        | (some e, nowc) =>
            CallOutcome.canceled e ⟨r, nowc, delay, slept, pauses, calls⟩
        | (none, now2) =>
            if errorsIs a.err ErrTooManyRequests then
              callLoop sleep rest (applyAttempt r now2 a) now2
                (wrap64 (delay * 2)) false (wrap64 (slept + delay))
                (pauses + 1) (calls + 1)
            else
              CallOutcome.returned a.err
                ⟨applyAttempt r now2 a, now2, wrap64 (delay * 2),
                  wrap64 (slept + delay), pauses + 1, calls + 1⟩
      else
        if errorsIs a.err ErrTooManyRequests then
          callLoop sleep rest (applyAttempt r now a) now delay
            false slept pauses (calls + 1)
        else
          CallOutcome.returned a.err
            ⟨applyAttempt r now a, now, delay, slept, pauses, calls + 1⟩

/-- The inner `call`: the loop started with `delay = minimumRateLimitDelay`
and `first = true` and zeroed ghost counters (`now` is `time.Now()` at
entry). -/
def RateLimit.call (r : RateLimit) (now : Int) (f : List Attempt)
    (sleep : Int → Int → Option GoError × Int) : CallOutcome :=
  callLoop sleep f r now minimumRateLimitDelay true 0 0 0

/-- The sleep of the public `Call`, for a context with an optional absolute
deadline: the cancellable timer fires after `d` unless the context is done
first, in which case the context's error is returned. -/
def ctxSleep (deadline : Option Int) (ctxErr : GoError) (now d : Int) :
    Option GoError × Int :=
  match deadline with
  | none => (none, now + d)
  | some dl =>
      if now + d ≤ dl then (none, now + d)
      else (some ctxErr, max now (min dl (now + d)))

/-- The public `Call`: the inner `call` with the timer-based sleep. -/
def RateLimit.CallWith (r : RateLimit) (now : Int) (deadline : Option Int)
    (ctxErr : GoError) (f : List Attempt) : CallOutcome :=
  r.call now f (ctxSleep deadline ctxErr)

/-- A sleep that always completes after exactly the requested duration: a
never-cancelled context (this is also the mock the repository's own tests
use, accumulating the requested durations). -/
def mockSleep (now d : Int) : Option GoError × Int := (none, now + d)

/-- A sleep invoked while the context is already done: it returns the
context's error at once. -/
def doneCtxSleep (e : GoError) (now _d : Int) : Option GoError × Int :=
  (some e, now)

/-- The Go zero value of the `RateLimit` struct: all counters zero and the
zero `time.Time`. -/
def zeroRateLimit : RateLimit := ⟨0, 0, 0, 0⟩

/-- The attempt the repository's tests use for a rate-limited call: `f`
returns the sentinel and performs no update. -/
def tmrAttempt : Attempt := ⟨some GoError.tooManyRequests, none⟩

/-- The final snapshot an outcome carries. -/
def CallOutcome.rl : CallOutcome → RateLimit
  | CallOutcome.returned _ st => st.rl
  | CallOutcome.canceled _ st => st.rl
  | CallOutcome.fuelOut st => st.rl

/-- The total time slept over the run. -/
def CallOutcome.slept : CallOutcome → Int
  | CallOutcome.returned _ st => st.slept
  | CallOutcome.canceled _ st => st.slept
  | CallOutcome.fuelOut st => st.slept

/-- The number of completed pauses over the run. -/
def CallOutcome.pauses : CallOutcome → Nat
  | CallOutcome.returned _ st => st.pauses
  | CallOutcome.canceled _ st => st.pauses
  | CallOutcome.fuelOut st => st.pauses

/-- The number of invocations of `f` over the run. -/
def CallOutcome.calls : CallOutcome → Nat
  | CallOutcome.returned _ st => st.calls
  | CallOutcome.canceled _ st => st.calls
  | CallOutcome.fuelOut st => st.calls

/-- The `delay` variable when the run stopped. -/
def CallOutcome.delay : CallOutcome → Int
  | CallOutcome.returned _ st => st.delay
  | CallOutcome.canceled _ st => st.delay
  | CallOutcome.fuelOut st => st.delay

/-- The error `call` returns, as a Go value: the attempt's result on a
normal return, the context's error on cancellation (`none` for the
truncated-model case). -/
def CallOutcome.ret : CallOutcome → Option GoError
  | CallOutcome.returned e _ => e
  | CallOutcome.canceled e _ => some e
  | CallOutcome.fuelOut _ => none

/-- Whether the run ended by returning an attempt's result. -/
def CallOutcome.isReturned : CallOutcome → Bool
  | CallOutcome.returned _ _ => true
  | _ => false

/-- Whether the run ended inside a cancelled sleep. -/
def CallOutcome.isCanceled : CallOutcome → Bool
  | CallOutcome.canceled _ _ => true
  | _ => false

/-! ## Helper lemmas -/

theorem errorsIs_sentinel :
    errorsIs (some GoError.tooManyRequests) ErrTooManyRequests = true := rfl

theorem errorsIs_tmrAttempt :
    errorsIs tmrAttempt.err ErrTooManyRequests = true := rfl

theorem applyAttempt_tmr (r : RateLimit) (now : Int) :
    applyAttempt r now tmrAttempt = r := rfl

theorem needPause_of_not_first (now rem w : Int) :
    needPause false now rem w = true := by
  simp [needPause]

/-- int64 wraparound is the identity on values already in range. -/
theorem wrap64_eq_self (x : Int) (h0 : 0 ≤ x) (h1 : x ≤ int64Max) :
    wrap64 x = x := by
  unfold wrap64
  unfold int64Max at h1
  omega

/-- After a first quota-exhaustion failure the loop pauses before every
further attempt; with the never-cancelling sleep, `k` sentinel results
followed by one non-sentinel result produce `k + 1` pauses whose durations
double from `d`, and the final result is returned — provided the doubling
sequence stays within the int64 range of Go durations (its total, and the
delay stored after the final doubling, at most `int64Max`), so that no
wraparound occurs. -/
theorem callLoop_retry_run (res : Option GoError)
    (h : errorsIs res ErrTooManyRequests = false) (k : Nat) :
    ∀ (r : RateLimit) (now d s : Int) (p c : Nat),
    0 ≤ d → 0 ≤ s →
    s + (2 ^ (k + 1) - 1) * d ≤ int64Max →
    2 ^ (k + 1) * d ≤ int64Max →
    callLoop mockSleep (List.replicate k tmrAttempt ++ [⟨res, none⟩])
        r now d false s p c
      = CallOutcome.returned res
          ⟨r, now + (2 ^ (k + 1) - 1) * d, 2 ^ (k + 1) * d,
            s + (2 ^ (k + 1) - 1) * d, p + (k + 1), c + (k + 1)⟩ := by
  induction k with
  | zero =>
      intro r now d s p c hd hs htot hdel
      norm_num at htot hdel
      have hw1 : wrap64 (s + d) = s + d :=
        wrap64_eq_self _ (by omega) (by omega)
      have hw2 : wrap64 (d * 2) = d * 2 :=
        wrap64_eq_self _ (by omega) (by omega)
      simp [callLoop, needPause, mockSleep, applyAttempt, h, hw1, hw2]
      ring
  | succ k ih =>
      intro r now d s p c hd hs htot hdel
      have hpow : (2 : Int) ≤ 2 ^ (k + 1 + 1) := by
        calc (2 : Int) = 2 ^ 1 := by norm_num
        _ ≤ 2 ^ (k + 1 + 1) := by
            apply pow_le_pow_right <;> omega
      have hdnn : 0 ≤ (2 ^ (k + 1 + 1) - 2) * d :=
        mul_nonneg (by omega) hd
      have key1 : s + (2 ^ (k + 1 + 1) - 1) * d
          = s + d + (2 ^ (k + 1 + 1) - 2) * d := by ring
      have key2 : 2 ^ (k + 1 + 1) * d = d * 2 + (2 ^ (k + 1 + 1) - 2) * d := by
        ring
      have hw1 : wrap64 (s + d) = s + d :=
        wrap64_eq_self _ (by linarith) (by linarith)
      have hw2 : wrap64 (d * 2) = d * 2 :=
        wrap64_eq_self _ (by linarith) (by linarith)
      rw [List.replicate_succ, List.cons_append]
      simp only [callLoop, needPause_of_not_first, mockSleep,
        errorsIs_tmrAttempt, applyAttempt_tmr, if_true, hw1, hw2]
      rw [ih r (now + d) (d * 2) (s + d) (p + 1) (c + 1) (by linarith)
        (by linarith)
        (by calc s + d + (2 ^ (k + 1) - 1) * (d * 2)
              = s + (2 ^ (k + 1 + 1) - 1) * d := by ring
            _ ≤ int64Max := htot)
        (by calc 2 ^ (k + 1) * (d * 2) = 2 ^ (k + 1 + 1) * d := by ring
            _ ≤ int64Max := hdel)]
      congr 1
      simp only [LoopState.mk.injEq]
      and_intros <;> first | rfl | ring | omega

/-! ## C1 -/

set_option maxRecDepth 40000 in
/-- C1 counterexample: the claim quantifies over every `N ≥ 0`, but `delay`
and the accumulated slept durations are Go int64 `time.Duration` values, and
the doubling sequence overflows int64 for large `N`.  At `N = 31` with a
fresh snapshot `(10, 10, 0)` (so the preventive pause applies), the claimed
total `(2^32 - 1) * minimumRateLimitDelay = 10737418237500000000` exceeds
`int64Max = 9223372036854775807`; the 64-bit accumulation wraps and the run
accumulates `-7709325836209551616` instead. -/
theorem call_backoff_wrap_counterexample :
    needPause true 0 (⟨10, 10, 0, 0⟩ : RateLimit).remaining
        (⟨10, 10, 0, 0⟩ : RateLimit).updated = true ∧
    int64Max < (2 ^ (31 + 1) - 1) * minimumRateLimitDelay ∧
    (RateLimit.call ⟨10, 10, 0, 0⟩ 0
        (List.replicate 31 tmrAttempt ++ [⟨none, none⟩]) mockSleep).slept
      = -7709325836209551616 ∧
    ((RateLimit.call ⟨10, 10, 0, 0⟩ 0
        (List.replicate 31 tmrAttempt ++ [⟨none, none⟩]) mockSleep).slept
      = (2 ^ (31 + 1) - 1) * minimumRateLimitDelay → False) := by decide

/-- C1 (amended): when `work` returns the quota-exhausted sentinel on its
first `N` invocations and a non-quota result on invocation `N + 1`, `call`
(with a never-cancelled context) returns that final result, and the total
slept time is the sum of a doubling sequence starting at
`minimumRateLimitDelay`: `(2^N - 1) * minimumRateLimitDelay` when the
initial snapshot did not require a preventive pause, and
`(2^(N+1) - 1) * minimumRateLimitDelay` (one extra leading pause, then
doublings) when it did — for every `N ≤ 30`, i.e. while the whole doubling
sequence stays within the int64 range of Go durations; beyond that the
64-bit delay arithmetic wraps and the stated totals are not attained
(counterexample at `N = 31`). -/
theorem call_backoff_total_delay (N : Nat) (r : RateLimit) (now : Int)
    (res : Option GoError) (hN : N ≤ 30)
    (h : errorsIs res ErrTooManyRequests = false) :
    (RateLimit.call r now
        (List.replicate N tmrAttempt ++ [⟨res, none⟩]) mockSleep).ret = res ∧
    (RateLimit.call r now
        (List.replicate N tmrAttempt ++ [⟨res, none⟩]) mockSleep).slept =
      (if needPause true now r.remaining r.updated
        then (2 ^ (N + 1) - 1) * minimumRateLimitDelay
        else (2 ^ N - 1) * minimumRateLimitDelay) := by
  have hmin : (0 : Int) ≤ minimumRateLimitDelay := by
    norm_num [minimumRateLimitDelay]
  unfold RateLimit.call
  cases N with
  | zero =>
      have hw1 : wrap64 (0 + minimumRateLimitDelay) = minimumRateLimitDelay := by
        decide
      have hw2 : wrap64 (minimumRateLimitDelay * 2)
          = minimumRateLimitDelay * 2 := by decide
      cases hp : needPause true now r.remaining r.updated with
      | true =>
          simp only [List.replicate_zero, List.nil_append, callLoop,
            RateLimit.get, hp, if_true, mockSleep, h, if_false,
            Bool.false_eq_true, applyAttempt, hw1, hw2]
          simp [CallOutcome.ret, CallOutcome.slept]
      | false =>
          simp only [List.replicate_zero, List.nil_append, callLoop,
            RateLimit.get, hp, mockSleep, h, Bool.false_eq_true, if_false,
            applyAttempt]
          simp [CallOutcome.ret, CallOutcome.slept]
  | succ k =>
      have hk31 : (2 : Int) ^ (k + 1 + 1) ≤ 2 ^ 31 := by
        apply pow_le_pow_right <;> omega
      have hk31w : (2 : Int) ^ (k + 1) ≤ 2 ^ 31 := by
        apply pow_le_pow_right <;> omega
      have h31 : ((2 : Int) ^ 31 - 1) * minimumRateLimitDelay ≤ int64Max := by
        norm_num [minimumRateLimitDelay, int64Max]
      have h31d : (2 : Int) ^ 31 * minimumRateLimitDelay ≤ int64Max := by
        norm_num [minimumRateLimitDelay, int64Max]
      have hw1 : wrap64 (0 + minimumRateLimitDelay) = minimumRateLimitDelay := by
        decide
      have hw2 : wrap64 (minimumRateLimitDelay * 2)
          = minimumRateLimitDelay * 2 := by decide
      rw [List.replicate_succ, List.cons_append]
      cases hp : needPause true now r.remaining r.updated with
      | true =>
          simp only [callLoop, RateLimit.get, hp, if_true, mockSleep,
            errorsIs_tmrAttempt, applyAttempt_tmr, hw1, hw2]
          rw [callLoop_retry_run res h k r (now + minimumRateLimitDelay)
            (minimumRateLimitDelay * 2) minimumRateLimitDelay 1 1
            (by linarith) hmin
            (by calc minimumRateLimitDelay
                  + (2 ^ (k + 1) - 1) * (minimumRateLimitDelay * 2)
                  = (2 ^ (k + 1 + 1) - 1) * minimumRateLimitDelay := by ring
                _ ≤ (2 ^ 31 - 1) * minimumRateLimitDelay := by
                    apply mul_le_mul_of_nonneg_right _ hmin
                    linarith
                _ ≤ int64Max := h31)
            (by calc (2 : Int) ^ (k + 1) * (minimumRateLimitDelay * 2)
                  = 2 ^ (k + 1 + 1) * minimumRateLimitDelay := by ring
                _ ≤ 2 ^ 31 * minimumRateLimitDelay :=
                    mul_le_mul_of_nonneg_right hk31 hmin
                _ ≤ int64Max := h31d)]
          simp [CallOutcome.ret, CallOutcome.slept]
          ring
      | false =>
          simp only [callLoop, RateLimit.get, hp, Bool.false_eq_true,
            if_false, errorsIs_tmrAttempt, applyAttempt_tmr]
          rw [callLoop_retry_run res h k r now minimumRateLimitDelay 0 0 1
            hmin le_rfl
            (by calc (0 : Int) + (2 ^ (k + 1) - 1) * minimumRateLimitDelay
                  = (2 ^ (k + 1) - 1) * minimumRateLimitDelay := by ring
                _ ≤ (2 ^ 31 - 1) * minimumRateLimitDelay := by
                    apply mul_le_mul_of_nonneg_right _ hmin
                    linarith
                _ ≤ int64Max := h31)
            (by calc (2 : Int) ^ (k + 1) * minimumRateLimitDelay
                  ≤ 2 ^ 31 * minimumRateLimitDelay :=
                    mul_le_mul_of_nonneg_right hk31w hmin
                _ ≤ int64Max := h31d)]
          simp [CallOutcome.ret, CallOutcome.slept]

/-- Witness for C1 at the spec's concrete scenario D: snapshot
`(10, 10, 0)` observed at the current instant, `work` returning the sentinel
twice then nil; the preventive pause applies, so the slept total is
`(2^3 - 1) * minimumRateLimitDelay = 7 * minimumRateLimitDelay`. -/
theorem call_backoff_total_delay_witness :
    (RateLimit.call ⟨10, 10, 0, 0⟩ 0
        (List.replicate 2 tmrAttempt ++ [⟨none, none⟩]) mockSleep).ret
        = none ∧
    (RateLimit.call ⟨10, 10, 0, 0⟩ 0
        (List.replicate 2 tmrAttempt ++ [⟨none, none⟩]) mockSleep).slept =
      (if needPause true 0 (⟨10, 10, 0, 0⟩ : RateLimit).remaining
          (⟨10, 10, 0, 0⟩ : RateLimit).updated
        then (2 ^ (2 + 1) - 1) * minimumRateLimitDelay
        else (2 ^ 2 - 1) * minimumRateLimitDelay) :=
  call_backoff_total_delay 2 ⟨10, 10, 0, 0⟩ 0 none (by omega) (by decide)

/-! ## C2 -/

/-- C2: an iteration of the loop pauses (observed here through a sleep that
reports an already-done context) if and only if this is a retry after a
quota-exhaustion failure (`first = false`), or the snapshot was observed
within the last 10 seconds and `remaining ≤ 1` (threshold `≤ 1`, not
`≤ 0`); when neither holds, `work` is invoked with no pause. -/
theorem call_pause_decision (a : Attempt) (r : RateLimit)
    (now delay s : Int) (first : Bool) (p c : Nat) (e : GoError) :
    ((callLoop (doneCtxSleep e) [a] r now delay first s p c).isCanceled
        = true
      ↔ (first = false
          ∨ (now - r.updated < freshnessWindow ∧ r.remaining ≤ 1))) ∧
    (first = true →
      ¬(now - r.updated < freshnessWindow ∧ r.remaining ≤ 1) →
      (callLoop (doneCtxSleep e) [a] r now delay first s p c).calls = c + 1
        ∧ (callLoop (doneCtxSleep e) [a] r now delay first s p c).slept = s
        ∧ (callLoop (doneCtxSleep e) [a] r now delay first s p c).pauses
            = p) := by
  cases first with
  | false =>
      simp [callLoop, needPause, RateLimit.get, doneCtxSleep,
        CallOutcome.isCanceled]
  | true =>
      by_cases hf : now - r.updated < freshnessWindow
      · by_cases hr : r.remaining ≤ 1
        · simp [callLoop, needPause, RateLimit.get, doneCtxSleep, hf, hr,
            CallOutcome.isCanceled]
        · by_cases he : errorsIs a.err ErrTooManyRequests = true
          · simp [callLoop, needPause, RateLimit.get, hf, hr, he,
              CallOutcome.isCanceled, CallOutcome.calls, CallOutcome.slept,
              CallOutcome.pauses]
          · simp only [Bool.not_eq_true] at he
            simp [callLoop, needPause, RateLimit.get, hf, hr, he,
              CallOutcome.isCanceled, CallOutcome.calls, CallOutcome.slept,
              CallOutcome.pauses]
      · by_cases he : errorsIs a.err ErrTooManyRequests = true
        · simp [callLoop, needPause, RateLimit.get, hf, he,
            CallOutcome.isCanceled, CallOutcome.calls, CallOutcome.slept,
            CallOutcome.pauses]
        · simp only [Bool.not_eq_true] at he
          simp [callLoop, needPause, RateLimit.get, hf, he,
            CallOutcome.isCanceled, CallOutcome.calls, CallOutcome.slept,
            CallOutcome.pauses]

/-! ## C3 -/

/-- Results matching the sentinel under `errors.Is` are all retried: with the
never-cancelled sleep, the first attempt whose result does not match is the
one returned, after exactly one invocation per skipped attempt. -/
theorem callLoop_skip_matching (a : Attempt) (rest : List Attempt)
    (ha : errorsIs a.err ErrTooManyRequests = false) (pre : List Attempt) :
    ∀ (r : RateLimit) (now d s : Int) (first : Bool) (p c : Nat),
    (∀ b ∈ pre, errorsIs b.err ErrTooManyRequests = true) →
    ∃ st : LoopState,
      callLoop mockSleep (pre ++ a :: rest) r now d first s p c
        = CallOutcome.returned a.err st
        ∧ st.calls = c + (pre.length + 1) := by
  induction pre with
  | nil =>
      intro r now d s first p c _
      by_cases hp : needPause first now r.remaining r.updated = true
      · simp only [List.nil_append, callLoop, RateLimit.get, hp, if_true,
          mockSleep, ha, Bool.false_eq_true, if_false]
        exact ⟨_, rfl, rfl⟩
      · simp only [Bool.not_eq_true] at hp
        simp only [List.nil_append, callLoop, RateLimit.get, hp,
          Bool.false_eq_true, if_false, ha]
        exact ⟨_, rfl, rfl⟩
  | cons b pre ih =>
      intro r now d s first p c hpre
      have hb : errorsIs b.err ErrTooManyRequests = true :=
        hpre b (List.mem_cons_self b pre)
      have hpre' : ∀ x ∈ pre, errorsIs x.err ErrTooManyRequests = true :=
        fun x hx => hpre x (List.mem_cons_of_mem b hx)
      by_cases hp : needPause first now r.remaining r.updated = true
      · simp only [List.cons_append, callLoop, RateLimit.get, hp, if_true,
          mockSleep, hb]
        obtain ⟨st, heq, hc⟩ :=
          ih (applyAttempt r (now + d) b) (now + d) (wrap64 (d * 2))
            (wrap64 (s + d)) false (p + 1) (c + 1) hpre'
        exact ⟨st, heq, by simp only [List.length_cons]; omega⟩
      · simp only [Bool.not_eq_true] at hp
        simp only [List.cons_append, callLoop, RateLimit.get, hp,
          Bool.false_eq_true, if_false, hb, if_true]
        obtain ⟨st, heq, hc⟩ :=
          ih (applyAttempt r now b) now d s false p (c + 1) hpre'
        exact ⟨st, heq, by simp only [List.length_cons]; omega⟩

/-- C3 counterexample: the claim speaks of the first result *not equal* to
the sentinel.  An error wrapping the sentinel is not equal to it, yet `call`
retries it rather than returning it: with results
`[wrap(ErrTooManyRequests), nil]` the first non-equal result is the first
one, but `call` invokes `work` twice and returns `nil`. -/
theorem call_first_unequal_counterexample :
    (GoError.wrap GoError.tooManyRequests = ErrTooManyRequests → False) ∧
    (RateLimit.call ⟨10, 6, 4, 0⟩ 0
        [⟨some (GoError.wrap GoError.tooManyRequests), none⟩, ⟨none, none⟩]
        mockSleep).calls = 2 ∧
    (RateLimit.call ⟨10, 6, 4, 0⟩ 0
        [⟨some (GoError.wrap GoError.tooManyRequests), none⟩, ⟨none, none⟩]
        mockSleep).ret = none := by decide

/-- C3 (amended): for every `work` whose `k`-th result is the first result
not matching the sentinel under `errors.Is` (for results that never wrap the
sentinel this is exactly the first result not equal to it), `call` with a
never-cancelled context invokes `work` exactly `k` times and returns that
`k`-th result verbatim; every result matching the sentinel is retried, never
returned. -/
theorem call_returns_first_non_matching (pre : List Attempt) (a : Attempt)
    (rest : List Attempt) (r : RateLimit) (now : Int)
    (hpre : ∀ b ∈ pre, errorsIs b.err ErrTooManyRequests = true)
    (ha : errorsIs a.err ErrTooManyRequests = false) :
    (RateLimit.call r now (pre ++ a :: rest) mockSleep).isReturned = true ∧
    (RateLimit.call r now (pre ++ a :: rest) mockSleep).ret = a.err ∧
    (RateLimit.call r now (pre ++ a :: rest) mockSleep).calls
      = pre.length + 1 := by
  obtain ⟨st, heq, hc⟩ :=
    callLoop_skip_matching a rest ha pre r now minimumRateLimitDelay 0 true
      0 0 hpre
  unfold RateLimit.call
  rw [heq]
  simp [CallOutcome.isReturned, CallOutcome.ret, CallOutcome.calls, hc]

/-- Witness for C3's amended theorem: one sentinel result, then a distinct
error, which is returned after exactly two invocations. -/
theorem call_returns_first_non_matching_witness :
    (RateLimit.call ⟨10, 10, 0, 0⟩ 0
        ([tmrAttempt] ++ ⟨some (GoError.other 5), none⟩ :: []) mockSleep).isReturned
        = true ∧
    (RateLimit.call ⟨10, 10, 0, 0⟩ 0
        ([tmrAttempt] ++ ⟨some (GoError.other 5), none⟩ :: []) mockSleep).ret
        = (⟨some (GoError.other 5), none⟩ : Attempt).err ∧
    (RateLimit.call ⟨10, 10, 0, 0⟩ 0
        ([tmrAttempt] ++ ⟨some (GoError.other 5), none⟩ :: []) mockSleep).calls
      = [tmrAttempt].length + 1 :=
  call_returns_first_non_matching [tmrAttempt] ⟨some (GoError.other 5), none⟩
    [] ⟨10, 10, 0, 0⟩ 0 (by decide) (by decide)

/-! ## C4 -/

/-- C4: when the pause condition holds and the sleep reports the context's
error (cancellation or deadline during the wait), `call` returns that error
at once: `work` is not invoked in that iteration, and the invocation count,
the total slept time and the current delay are all unchanged from before the
pause began. -/
theorem call_cancel_during_pause (sleep : Int → Int → Option GoError × Int)
    (a : Attempt) (rest : List Attempt) (r : RateLimit)
    (now d s nowc : Int) (first : Bool) (p c : Nat) (e : GoError)
    (hp : needPause first now r.remaining r.updated = true)
    (hs : sleep now d = (some e, nowc)) :
    callLoop sleep (a :: rest) r now d first s p c
      = CallOutcome.canceled e ⟨r, nowc, d, s, p, c⟩ := by
  simp [callLoop, RateLimit.get, hp, hs]

/-- Witness for C4: a retry pause with an already-done context returns the
context's error with the counters untouched. -/
theorem call_cancel_during_pause_witness :
    needPause false 0 (⟨10, 6, 4, 0⟩ : RateLimit).remaining
        (⟨10, 6, 4, 0⟩ : RateLimit).updated = true ∧
    callLoop (doneCtxSleep (GoError.other 7)) [⟨none, none⟩] ⟨10, 6, 4, 0⟩
        0 minimumRateLimitDelay false 0 0 3
      = CallOutcome.canceled (GoError.other 7)
          ⟨⟨10, 6, 4, 0⟩, 0, minimumRateLimitDelay, 0, 0, 3⟩ :=
  ⟨by decide,
    call_cancel_during_pause (doneCtxSleep (GoError.other 7)) ⟨none, none⟩
      [] ⟨10, 6, 4, 0⟩ 0 minimumRateLimitDelay 0 0 false 0 3
      (GoError.other 7) (by decide) rfl⟩

/-! ## C5 -/

/-- C5: when `work` returns a non-quota result on its first invocation,
`call` (never-cancelled context) completes after that single attempt; with
`remaining > 1` or a snapshot at least 10 seconds old it accumulates zero
delay and no pause, and with a fresh snapshot and `remaining ≤ 1` it pauses
exactly once, for exactly `minimumRateLimitDelay`. -/
theorem call_single_attempt (a : Attempt) (rest : List Attempt)
    (r : RateLimit) (now : Int)
    (ha : errorsIs a.err ErrTooManyRequests = false) :
    ((1 < r.remaining ∨ ¬(now - r.updated < freshnessWindow)) →
      (RateLimit.call r now (a :: rest) mockSleep).ret = a.err ∧
      (RateLimit.call r now (a :: rest) mockSleep).slept = 0 ∧
      (RateLimit.call r now (a :: rest) mockSleep).pauses = 0 ∧
      (RateLimit.call r now (a :: rest) mockSleep).calls = 1) ∧
    ((now - r.updated < freshnessWindow ∧ r.remaining ≤ 1) →
      (RateLimit.call r now (a :: rest) mockSleep).ret = a.err ∧
      (RateLimit.call r now (a :: rest) mockSleep).slept
          = minimumRateLimitDelay ∧
      (RateLimit.call r now (a :: rest) mockSleep).pauses = 1 ∧
      (RateLimit.call r now (a :: rest) mockSleep).calls = 1) := by
  constructor
  · intro h
    have hp : needPause true now r.remaining r.updated = false := by
      simp only [needPause, Bool.not_true, Bool.false_or,
        Bool.and_eq_false_iff, decide_eq_false_iff_not]
      rcases h with h | h
      · right; omega
      · left; exact h
    simp [RateLimit.call, callLoop, RateLimit.get, hp, ha,
      CallOutcome.ret, CallOutcome.slept, CallOutcome.pauses,
      CallOutcome.calls]
  · intro h
    have hp : needPause true now r.remaining r.updated = true := by
      simp only [needPause, Bool.not_true, Bool.false_or, Bool.and_eq_true,
        decide_eq_true_eq]
      exact h
    have hw : wrap64 minimumRateLimitDelay = minimumRateLimitDelay := by
      decide
    simp [RateLimit.call, callLoop, RateLimit.get, hp, ha, mockSleep, hw,
      CallOutcome.ret, CallOutcome.slept, CallOutcome.pauses,
      CallOutcome.calls]

/-- Witness for C5 at the spec's scenario B: fresh snapshot `(10, 10, 0)`,
`work` succeeding at once, one pause of `minimumRateLimitDelay`. -/
theorem call_single_attempt_witness :
    ((1 < (⟨10, 10, 0, 0⟩ : RateLimit).remaining ∨
        ¬((0 : Int) - (⟨10, 10, 0, 0⟩ : RateLimit).updated
            < freshnessWindow)) →
      (RateLimit.call ⟨10, 10, 0, 0⟩ 0 ((⟨none, none⟩ : Attempt) :: [])
          mockSleep).ret = (⟨none, none⟩ : Attempt).err ∧
      (RateLimit.call ⟨10, 10, 0, 0⟩ 0 ((⟨none, none⟩ : Attempt) :: [])
          mockSleep).slept = 0 ∧
      (RateLimit.call ⟨10, 10, 0, 0⟩ 0 ((⟨none, none⟩ : Attempt) :: [])
          mockSleep).pauses = 0 ∧
      (RateLimit.call ⟨10, 10, 0, 0⟩ 0 ((⟨none, none⟩ : Attempt) :: [])
          mockSleep).calls = 1) ∧
    (((0 : Int) - (⟨10, 10, 0, 0⟩ : RateLimit).updated < freshnessWindow ∧
        (⟨10, 10, 0, 0⟩ : RateLimit).remaining ≤ 1) →
      (RateLimit.call ⟨10, 10, 0, 0⟩ 0 ((⟨none, none⟩ : Attempt) :: [])
          mockSleep).ret = (⟨none, none⟩ : Attempt).err ∧
      (RateLimit.call ⟨10, 10, 0, 0⟩ 0 ((⟨none, none⟩ : Attempt) :: [])
          mockSleep).slept = minimumRateLimitDelay ∧
      (RateLimit.call ⟨10, 10, 0, 0⟩ 0 ((⟨none, none⟩ : Attempt) :: [])
          mockSleep).pauses = 1 ∧
      (RateLimit.call ⟨10, 10, 0, 0⟩ 0 ((⟨none, none⟩ : Attempt) :: [])
          mockSleep).calls = 1) :=
  call_single_attempt ⟨none, none⟩ [] ⟨10, 10, 0, 0⟩ 0 (by decide)

/-! ## C6 -/

/-- C6: `Update` unconditionally overwrites all three counters with its
arguments — any integers, including negative or mutually inconsistent values
— and stamps the time of the update; a `Get` with no intervening `Update`
returns exactly the tuple just written, as one consistent snapshot whose
timestamp is the time of the `Update`. -/
theorem update_then_get (r : RateLimit) (total used remaining now : Int) :
    (r.update total used remaining now).get
      = (total, used, remaining, now) := rfl

/-! ## C7 -/

/-- The loop of `call` threads the shared snapshot through unchanged: every
write to it comes from an attempt's own `Update`.  When no attempt updates,
the snapshot at the end of the run — however it ends, for any sleep — is the
snapshot at the start. -/
theorem callLoop_rl_frame (sleep : Int → Int → Option GoError × Int)
    (attempts : List Attempt) :
    ∀ (r : RateLimit) (now d s : Int) (first : Bool) (p c : Nat),
    (∀ a ∈ attempts, a.upd = none) →
    (callLoop sleep attempts r now d first s p c).rl = r := by
  induction attempts with
  | nil =>
      intro r now d s first p c _
      simp [callLoop, CallOutcome.rl]
  | cons a rest ih =>
      intro r now d s first p c h
      have ha : a.upd = none := h a (List.mem_cons_self a rest)
      have haa : ∀ now2, applyAttempt r now2 a = r := by
        intro now2; simp [applyAttempt, ha]
      have hrest : ∀ b ∈ rest, b.upd = none :=
        fun b hb => h b (List.mem_cons_of_mem a hb)
      by_cases hp : needPause first now r.remaining r.updated = true
      · simp only [callLoop, RateLimit.get, hp, if_true]
        cases hs : sleep now d with
        | mk oe now2 =>
            cases oe with
            | some e => simp [CallOutcome.rl]
            | none =>
                by_cases he : errorsIs a.err ErrTooManyRequests = true
                · simp only [he, if_true, haa]
                  exact ih r now2 (wrap64 (d * 2)) (wrap64 (s + d)) false
                    (p + 1) (c + 1) hrest
                · simp only [Bool.not_eq_true] at he
                  simp [he, haa, CallOutcome.rl]
      · simp only [Bool.not_eq_true] at hp
        simp only [callLoop, RateLimit.get, hp, Bool.false_eq_true, if_false]
        by_cases he : errorsIs a.err ErrTooManyRequests = true
        · simp only [he, if_true, haa]
          exact ih r now d s false p (c + 1) hrest
        · simp only [Bool.not_eq_true] at he
          simp [he, haa, CallOutcome.rl]

/-- C7: the snapshot's four fields are mutated only through `Update`.  `Get`
is a pure read, and a whole run of `call` — any number of attempts, pauses
and errors, any sleep behaviour — leaves the snapshot exactly as it found it
whenever the work itself performs no `Update`. -/
theorem call_never_writes_snapshot (attempts : List Attempt)
    (sleep : Int → Int → Option GoError × Int) (r : RateLimit) (now : Int)
    (h : ∀ a ∈ attempts, a.upd = none) :
    (RateLimit.call r now attempts sleep).rl = r ∧
    r.get = (r.total, r.used, r.remaining, r.updated) :=
  ⟨callLoop_rl_frame sleep attempts r now minimumRateLimitDelay 0 true 0 0 h,
    rfl⟩

/-- Witness for C7: two attempts (a sentinel, then success) with pauses and
a retry leave the snapshot untouched. -/
theorem call_never_writes_snapshot_witness :
    (RateLimit.call ⟨10, 10, 0, 0⟩ 0 [tmrAttempt, ⟨none, none⟩]
        mockSleep).rl = ⟨10, 10, 0, 0⟩ ∧
    RateLimit.get ⟨10, 10, 0, 0⟩
      = ((⟨10, 10, 0, 0⟩ : RateLimit).total,
          (⟨10, 10, 0, 0⟩ : RateLimit).used,
          (⟨10, 10, 0, 0⟩ : RateLimit).remaining,
          (⟨10, 10, 0, 0⟩ : RateLimit).updated) :=
  call_never_writes_snapshot [tmrAttempt, ⟨none, none⟩] mockSleep
    ⟨10, 10, 0, 0⟩ 0 (by decide)

/-! ## C8 -/

theorem errorsIs_wrap_sentinel :
    errorsIs (some (GoError.wrap GoError.tooManyRequests))
      ErrTooManyRequests = true := rfl

/-- Whatever `call`'s loop returns through its normal return (for any sleep,
any attempts), the returned error does not match the sentinel under
`errors.Is`: matching results are never handed back to the caller. -/
theorem callLoop_never_returns_matching
    (sleep : Int → Int → Option GoError × Int) (attempts : List Attempt) :
    ∀ (r : RateLimit) (now d s : Int) (first : Bool) (p c : Nat),
    (callLoop sleep attempts r now d first s p c).isReturned = true →
    errorsIs (callLoop sleep attempts r now d first s p c).ret
      ErrTooManyRequests = false := by
  induction attempts with
  | nil =>
      intro r now d s first p c
      simp [callLoop, CallOutcome.isReturned]
  | cons a rest ih =>
      intro r now d s first p c
      by_cases hp : needPause first now r.remaining r.updated = true
      · simp only [callLoop, RateLimit.get, hp, if_true]
        cases hs : sleep now d with
        | mk oe now2 =>
            cases oe with
            | some e => simp [CallOutcome.isReturned]
            | none =>
                by_cases he : errorsIs a.err ErrTooManyRequests = true
                · simp only [he, if_true]
                  exact ih (applyAttempt r now2 a) now2 (wrap64 (d * 2))
                    (wrap64 (s + d)) false (p + 1) (c + 1)
                · simp only [Bool.not_eq_true] at he
                  simp [he, CallOutcome.isReturned, CallOutcome.ret]
      · simp only [Bool.not_eq_true] at hp
        simp only [callLoop, RateLimit.get, hp, Bool.false_eq_true, if_false]
        by_cases he : errorsIs a.err ErrTooManyRequests = true
        · simp only [he, if_true]
          exact ih (applyAttempt r now a) now d s false p (c + 1)
        · simp only [Bool.not_eq_true] at he
          simp [he, CallOutcome.isReturned, CallOutcome.ret]

/-- C8: `call` treats as quota exhaustion not only the sentinel itself but
any error whose unwrap chain reaches it under `errors.Is`: unwrapping one
layer preserves the match; a result wrapping the sentinel is retried (here
followed by a non-quota result: two invocations, the second result
returned); and no run of `call` ever returns, through its normal return, an
error matching the sentinel. -/
theorem call_retries_wrapped_sentinel (r : RateLimit) (now : Int)
    (res : Option GoError) (attempts : List Attempt)
    (h : errorsIs res ErrTooManyRequests = false) :
    (∀ g : GoError, errorsIs (some (GoError.wrap g)) ErrTooManyRequests
        = errorsIs (some g) ErrTooManyRequests) ∧
    ((RateLimit.call r now
        [⟨some (GoError.wrap GoError.tooManyRequests), none⟩, ⟨res, none⟩]
        mockSleep).ret = res ∧
      (RateLimit.call r now
        [⟨some (GoError.wrap GoError.tooManyRequests), none⟩, ⟨res, none⟩]
        mockSleep).calls = 2) ∧
    ((RateLimit.call r now attempts mockSleep).isReturned = true →
      errorsIs ((RateLimit.call r now attempts mockSleep).ret)
        ErrTooManyRequests = false) := by
  refine ⟨?_, ?_, ?_⟩
  · intro g
    show errorsIsAux (GoError.wrap g) GoError.tooManyRequests
        = errorsIsAux g GoError.tooManyRequests
    rw [errorsIsAux]
    simp
  · by_cases hp : needPause true now r.remaining r.updated = true
    · simp [RateLimit.call, callLoop, RateLimit.get, hp, mockSleep,
        errorsIs_wrap_sentinel, needPause_of_not_first, h, applyAttempt,
        CallOutcome.ret, CallOutcome.calls]
    · simp only [Bool.not_eq_true] at hp
      simp [RateLimit.call, callLoop, RateLimit.get, hp, mockSleep,
        errorsIs_wrap_sentinel, needPause_of_not_first, h, applyAttempt,
        CallOutcome.ret, CallOutcome.calls]
  · exact callLoop_never_returns_matching mockSleep attempts r now
      minimumRateLimitDelay 0 true 0 0

/-- Witness for C8: a wrapped sentinel followed by nil is retried and the
run returns nil after two invocations. -/
theorem call_retries_wrapped_sentinel_witness :
    (∀ g : GoError, errorsIs (some (GoError.wrap g)) ErrTooManyRequests
        = errorsIs (some g) ErrTooManyRequests) ∧
    ((RateLimit.call ⟨10, 6, 4, 0⟩ 0
        [⟨some (GoError.wrap GoError.tooManyRequests), none⟩, ⟨none, none⟩]
        mockSleep).ret = none ∧
      (RateLimit.call ⟨10, 6, 4, 0⟩ 0
        [⟨some (GoError.wrap GoError.tooManyRequests), none⟩, ⟨none, none⟩]
        mockSleep).calls = 2) ∧
    ((RateLimit.call ⟨10, 6, 4, 0⟩ 0 [] mockSleep).isReturned = true →
      errorsIs ((RateLimit.call ⟨10, 6, 4, 0⟩ 0 [] mockSleep).ret)
        ErrTooManyRequests = false) :=
  call_retries_wrapped_sentinel ⟨10, 6, 4, 0⟩ 0 none [] (by decide)

/-! ## C9 -/

/-- C9: on a zero-valued `RateLimit` that has never been updated, the first
attempt of any `call` proceeds immediately with no preventive pause, even
though the stored `remaining` is 0, because the zero timestamp makes the
snapshot stale under the freshness check (`now` at least one window after
the zero instant, as any realistic clock is). -/
theorem call_zero_value_no_pause (now : Int) (a : Attempt)
    (rest : List Attempt) (hnow : freshnessWindow ≤ now)
    (ha : errorsIs a.err ErrTooManyRequests = false) :
    zeroRateLimit.remaining = 0 ∧
    (RateLimit.call zeroRateLimit now (a :: rest) mockSleep).pauses = 0 ∧
    (RateLimit.call zeroRateLimit now (a :: rest) mockSleep).slept = 0 ∧
    (RateLimit.call zeroRateLimit now (a :: rest) mockSleep).calls = 1 ∧
    (RateLimit.call zeroRateLimit now (a :: rest) mockSleep).ret
      = a.err := by
  have hp : needPause true now zeroRateLimit.remaining zeroRateLimit.updated
      = false := by
    simp only [needPause, zeroRateLimit, Bool.not_true, Bool.false_or,
      Bool.and_eq_false_iff, decide_eq_false_iff_not]
    left
    omega
  refine ⟨rfl, ?_⟩
  simp [RateLimit.call, callLoop, RateLimit.get, hp, ha, CallOutcome.pauses,
    CallOutcome.slept, CallOutcome.calls, CallOutcome.ret]

/-- Witness for C9: the clock exactly one freshness window past the zero
instant; a successful first attempt runs with no pause. -/
theorem call_zero_value_no_pause_witness :
    zeroRateLimit.remaining = 0 ∧
    (RateLimit.call zeroRateLimit freshnessWindow
        ((⟨none, none⟩ : Attempt) :: []) mockSleep).pauses = 0 ∧
    (RateLimit.call zeroRateLimit freshnessWindow
        ((⟨none, none⟩ : Attempt) :: []) mockSleep).slept = 0 ∧
    (RateLimit.call zeroRateLimit freshnessWindow
        ((⟨none, none⟩ : Attempt) :: []) mockSleep).calls = 1 ∧
    (RateLimit.call zeroRateLimit freshnessWindow
        ((⟨none, none⟩ : Attempt) :: []) mockSleep).ret
      = (⟨none, none⟩ : Attempt).err :=
  call_zero_value_no_pause freshnessWindow ⟨none, none⟩ [] (by decide)
    (by decide)

/-! ## C10 -/

/-- C10: the freshness boundary is exclusive: a snapshot observed 10 seconds
or more before the check is stale and causes no preventive pause even when
`remaining ≤ 1` (only an elapsed time strictly below `freshnessWindow`
counts as fresh); the witness exercises the exact 10-second boundary. -/
theorem freshness_boundary_exclusive (r : RateLimit) (now : Int)
    (a : Attempt) (rest : List Attempt)
    (hstale : freshnessWindow ≤ now - r.updated)
    (hrem : r.remaining ≤ 1)
    (ha : errorsIs a.err ErrTooManyRequests = false) :
    (RateLimit.call r now (a :: rest) mockSleep).pauses = 0 ∧
    (RateLimit.call r now (a :: rest) mockSleep).slept = 0 ∧
    (RateLimit.call r now (a :: rest) mockSleep).calls = 1 ∧
    (RateLimit.call r now (a :: rest) mockSleep).ret = a.err := by
  have hp : needPause true now r.remaining r.updated = false := by
    simp only [needPause, Bool.not_true, Bool.false_or,
      Bool.and_eq_false_iff, decide_eq_false_iff_not]
    left
    omega
  simp [RateLimit.call, callLoop, RateLimit.get, hp, ha, CallOutcome.pauses,
    CallOutcome.slept, CallOutcome.calls, CallOutcome.ret]

/-- Witness for C10 at the exact boundary: a snapshot observed precisely 10
seconds ago with `remaining = 0` triggers no preventive pause. -/
theorem freshness_boundary_exclusive_witness :
    (RateLimit.call ⟨10, 10, 0, 0⟩ freshnessWindow
        ((⟨none, none⟩ : Attempt) :: []) mockSleep).pauses = 0 ∧
    (RateLimit.call ⟨10, 10, 0, 0⟩ freshnessWindow
        ((⟨none, none⟩ : Attempt) :: []) mockSleep).slept = 0 ∧
    (RateLimit.call ⟨10, 10, 0, 0⟩ freshnessWindow
        ((⟨none, none⟩ : Attempt) :: []) mockSleep).calls = 1 ∧
    (RateLimit.call ⟨10, 10, 0, 0⟩ freshnessWindow
        ((⟨none, none⟩ : Attempt) :: []) mockSleep).ret
      = (⟨none, none⟩ : Attempt).err :=
  freshness_boundary_exclusive ⟨10, 10, 0, 0⟩ freshnessWindow ⟨none, none⟩
    [] (by decide) (by decide) (by decide)
